import Mathlib

/-
Shallow embedding of the serial test orchestrator
(src/core/Process_Control_20251201.py, src/core/Conditional.py,
src/ctrl/UART_communication.py).

Conventions of the embedding:
- Python strings are Lean String; Python None / optional values are Option.
- Python dict lookups become Option-returning functions.
- Real-time quantities (sleep, duration, wall-clock timestamps) are elided;
  the wall clock used by timestamp validation is passed in as an Int.
- Mutable objects become records threaded through functions; the observer
  callbacks registered on TestStateManager are modelled by recording every
  state transition in a `transitions` list.
- The manager lock (a non-reentrant threading.Lock) is modelled where its
  behavior is observable: a method that re-acquires the lock it already
  holds blocks forever, recorded by the TSMCall and RunOutcome types
  together with the shared state visible at the block; a method whose
  single acquire always succeeds is given its plain sequential body.
-/

/-- A single-quote character as a string, used to rebuild the Python
f-string error messages verbatim. -/
def sQuote : String := String.singleton (Char.ofNat 39)

/-- ASCII whitespace as recognised by Python `str.strip` and `int(str)`. -/
def isPyWs (c : Char) : Bool :=
  c = ' ' || c = '\t' || c = '\n' || c = '\r' || c = '\x0b' || c = '\x0c'

/-- Drop leading and trailing whitespace from a character list
(Python `str.strip`). -/
def stripChars (l : List Char) : List Char :=
  ((l.dropWhile isPyWs).reverse.dropWhile isPyWs).reverse

/-- Python `str.strip()`. -/
def pyStrip (s : String) : String := String.mk (stripChars s.data)

/-- Numeric value of an ASCII digit. -/
def digitVal (c : Char) : Nat := c.toNat - 48

/-- Digits possibly separated by single underscores (Python `int` accepts
`"1_000"`); an underscore must sit between two digits. -/
def digitsWithUnderscores : List Char → Nat → Option Nat
  | [], acc => some acc
  | '_' :: c :: rest, acc =>
      if c.isDigit then digitsWithUnderscores rest (acc * 10 + digitVal c) else none
  | c :: rest, acc =>
      if c.isDigit then digitsWithUnderscores rest (acc * 10 + digitVal c) else none

/-- An unsigned decimal numeral: at least one digit, underscores only
between digits. -/
def parseUnsigned : List Char → Option Nat
  | [] => none
  | c :: rest => if c.isDigit then digitsWithUnderscores rest (digitVal c) else none

/-- Python `int(str)`: optional surrounding whitespace, optional single
sign, decimal digits (ASCII) with optional single underscores between
digits; `none` models the `ValueError` raised otherwise. -/
def parsePyInt (s : String) : Option Int :=
  match stripChars s.data with
  | '+' :: rest => (parseUnsigned rest).map (fun n => (n : Int))
  | '-' :: rest => (parseUnsigned rest).map (fun n => -(n : Int))
  | l => (parseUnsigned l).map (fun n => (n : Int))

/-- Python truthiness of an optional string (`if x:`): `None` and `""`
are falsy. -/
def pyTruthyStrOpt : Option String → Bool
  | none => false
  | some s => !(decide (s = ""))

/-- `response.split(" ", 1)` on the character list: cut at the first
space character; the second component is `none` when there is no space
(`ValueError` branch of the tuple unpacking in `classify_data`). -/
def splitOnceSpace : List Char → List Char × Option (List Char)
  | [] => ([], none)
  | c :: cs =>
    if c = ' ' then ([], some cs)
    else
      let r := splitOnceSpace cs
      (c :: r.1, r.2)

/-- `Validator.classify_data` (Process_Control_20251201.py:195):
split the response into prefix and actual value at the first space;
when the split fails the whole response is the prefix and the actual
value is absent. -/
def classify_data (s : String) : String × Option String :=
  ((String.mk (splitOnceSpace s.data).1), ((splitOnceSpace s.data).2).map String.mk)

/-- A `Condition` dict from the command library: `.get` of each key. -/
structure Condition where
  type : Option String
  expected : Option String
  low : Option Int
  high : Option Int
  status : Option String
deriving DecidableEq, Repr

/-- A `Command_Line.yml` entry as accessed by the runner and judge. -/
structure CommandEntry where
  Command_Sends : String
  Title : String
  ID : String
  Response_Expectation : String
  Condition : Condition
deriving DecidableEq, Repr

/-- The list of condition types handled outside inline validation
(`Process_Control_20251201.py:229` and `:318`). -/
def deferredTypes : List String :=
  ["asynchrony", "restore", "therapy start", "therapy stop"]

/-- `condition_type in ["asynchrony", "restore", "therapy start",
"therapy stop"]` where `condition_type` is `condition.get("type")`. -/
def isDeferredType (t : Option String) : Bool :=
  match t with
  | some s => deferredTypes.contains s
  | none => false

/-- `Validator.is_valid_timestamp` (Process_Control_20251201.py:234):
integer epoch seconds within 5 minutes of `now`; false on parse failure. -/
def is_valid_timestamp (now : Int) (actual_value : String) : Bool :=
  match parsePyInt actual_value with
  | some t => decide ((now - t).natAbs < 300)
  | none => false

/-- Hex digit as matched by `[0-9A-Fa-f]`. -/
def isHexDigitChar (c : Char) : Bool :=
  (decide (48 ≤ c.toNat) && decide (c.toNat ≤ 57)) ||
  (decide (65 ≤ c.toNat) && decide (c.toNat ≤ 70)) ||
  (decide (97 ≤ c.toNat) && decide (c.toNat ≤ 102))

/-- Separator `[:-]` of the MAC pattern. -/
def isMacSep (c : Char) : Bool := c = ':' || c = '-'

/-- Exact match of `([0-9A-Fa-f]{2}[:-]){5}([0-9A-Fa-f]{2})`:
seventeen characters, six hex pairs with five separators. -/
def macCore : List Char → Bool
  | [a1, a2, s1, b1, b2, s2, c1, c2, s3, d1, d2, s4, e1, e2, s5, f1, f2] =>
    isHexDigitChar a1 && isHexDigitChar a2 && isMacSep s1 &&
    isHexDigitChar b1 && isHexDigitChar b2 && isMacSep s2 &&
    isHexDigitChar c1 && isHexDigitChar c2 && isMacSep s3 &&
    isHexDigitChar d1 && isHexDigitChar d2 && isMacSep s4 &&
    isHexDigitChar e1 && isHexDigitChar e2 && isMacSep s5 &&
    isHexDigitChar f1 && isHexDigitChar f2
  | _ => false

/-- `Validator.is_valid_mac_address` (Process_Control_20251201.py:243):
`re.match` of the anchored pattern; the regex `$` also matches just
before one final newline. -/
def is_valid_mac_address (s : String) : Bool :=
  macCore s.data || ((s.data.getLast? == some '\n') && macCore s.data.dropLast)

/-- `Validator.is_valid_rcode` (Process_Control_20251201.py:248):
placeholder rule, non-empty string. -/
def is_valid_rcode (s : String) : Bool := decide (0 < s.length)

/-- `Validator.validate_data` (Process_Control_20251201.py:204): the
if/elif chain over `condition.get("type")`. The `equal` branch compares
the string with `condition.get("expected")` (comparison with an absent
value is false, as in Python). The `between` branch parses the value,
returning false on parse failure (the `except ValueError` arm). -/
def validate_data (now : Int) (condition : Condition) (actual_value : String) : Bool :=
  if condition.type = some "equal" then
    match condition.expected with
    | some e => decide (actual_value = e)
    | none => false
  else if condition.type = some "between" then
    match parsePyInt actual_value with
    | some v => decide (condition.low.getD 0 ≤ v ∧ v ≤ condition.high.getD 0)
    | none => false
  else if condition.type = some "valid timestamp" then
    is_valid_timestamp now actual_value
  else if condition.type = some "valid format_mac" then
    is_valid_mac_address actual_value
  else if condition.type = some "valid format_rcode" then
    is_valid_rcode actual_value
  else if isDeferredType condition.type then
    true
  else
    false

/-- Legacy `Validator.validate_data` from src/core/Conditional.py:26:
same dispatch, but the `between` arm calls `int(actual_value)` with no
`try`, so a non-numeric value raises `ValueError` (the `Except.error`
arm) instead of returning false; the timestamp tag is `"timestamp"` and
there is no rcode or deferred arm. -/
def legacy_validate_data (now : Int) (condition : Condition) (actual_value : String) :
    Except String Bool :=
  if condition.type = some "equal" then
    Except.ok (match condition.expected with
      | some e => decide (actual_value = e)
      | none => false)
  else if condition.type = some "between" then
    match parsePyInt actual_value with
    | some v => Except.ok (decide (condition.low.getD 0 ≤ v ∧ v ≤ condition.high.getD 0))
    | none => Except.error "ValueError"
  else if condition.type = some "timestamp" then
    Except.ok (is_valid_timestamp now actual_value)
  else if condition.type = some "valid format_mac" then
    Except.ok (is_valid_mac_address actual_value)
  else
    Except.ok false

/-- A `TestResult` record (Process_Control_20251201.py:35); the
real-time fields `duration` and `timestamp` are elided. -/
structure TestResult where
  step_name : String
  command_id : String
  title : String
  command_sent : String
  prefixStr : String
  actual_value : Option String
  expected_value : Option String
  result : String
  error_message : Option String
deriving DecidableEq, Repr

/-- `TestJudge.get_expected_value` (Process_Control_20251201.py:262). -/
def get_expected_value (user_inputs : String → Option String) (command_id : String) :
    Option String :=
  if command_id = "Get_SN_Number" then user_inputs "device_sn"
  else if command_id = "Get_FW_Version" then user_inputs "fw_version"
  else if command_id = "Get_LCM_Version" then user_inputs "sw_version"
  else if command_id = "Get_WiFi_Version" then user_inputs "wifi_version"
  else none

/-- The f-string naming a prefix mismatch, with the expected and
received tokens single-quoted (Process_Control_20251201.py:310). -/
def prefixMismatchMsg (expected got : String) : String :=
  "Prefix mismatch: expected " ++ sQuote ++ expected ++ sQuote ++ ", got " ++ sQuote ++ got ++ sQuote

/-- Python `str(x)` of an optional string: `None` prints as "None". -/
def pyShowOpt : Option String → String
  | none => "None"
  | some s => s

/-- The f-string `"Validation failed: ..."` (Process_Control_20251201.py:335),
which interpolates the possibly absent expected value. -/
def validationFailedMsg (expected : Option String) (got : String) : String :=
  "Validation failed: expected " ++ sQuote ++ pyShowOpt expected ++ sQuote ++
    ", got " ++ sQuote ++ got ++ sQuote

/-- `TestJudge.judge_response` (Process_Control_20251201.py:274):
build the default Fail result; bail out on a falsy response; classify;
check the prefix; short-circuit deferred condition types; validate a
truthy actual value (substituting the run-scoped expected value when
the command id is an identity lookup); a falsy actual value passes. -/
def judge_response (user_inputs : String → Option String) (now : Int)
    (step_name command_id title command_sent : String)
    (command_entry : CommandEntry) (response : Option String) : TestResult :=
  let result0 : TestResult :=
    { step_name := step_name, command_id := command_id, title := title,
      command_sent := command_sent, prefixStr := "", actual_value := some "",
      expected_value := none, result := "Fail", error_message := none }
  if !(pyTruthyStrOpt response) then
    { result0 with error_message := some "No response received" }
  else
    let pa := classify_data (response.getD "")
    let result1 := { result0 with prefixStr := pa.1, actual_value := pa.2 }
    if pa.1 ≠ command_entry.Response_Expectation then
      { result1 with
        result := "Fail",
        error_message := some (prefixMismatchMsg command_entry.Response_Expectation pa.1) }
    else if isDeferredType command_entry.Condition.type then
      { result1 with
        result := "Pass",
        expected_value := some (command_entry.Condition.status.getD "N/A") }
    else if pyTruthyStrOpt pa.2 then
      let expected := get_expected_value user_inputs command_id
      let result2 :=
        if pyTruthyStrOpt expected then { result1 with expected_value := expected }
        else result1
      let condition2 :=
        if pyTruthyStrOpt expected then { command_entry.Condition with expected := expected }
        else command_entry.Condition
      if validate_data now condition2 (pa.2.getD "") then
        { result2 with result := "Pass" }
      else
        { result2 with
          result := "Fail",
          error_message := some (validationFailedMsg expected (pa.2.getD "")) }
    else
      { result1 with result := "Pass" }

/-- `TestState` (Process_Control_20251201.py:24). -/
inductive TestState where
  | idle
  | initializing
  | running
  | paused
  | completed
  | failed
  | stopped
deriving DecidableEq, Repr

/-- `TestStateManager` (Process_Control_20251201.py:69). The registered
state callbacks are modelled by the `transitions` list: `set_state`
appends the `(old, new)` pair it reports to every callback. The
real-time fields `start_time` and `end_time` are elided. -/
structure TestStateManager where
  current_state : TestState
  current_test_plan : Option String
  test_results : List TestResult
  total_tests : Nat
  passed_tests : Nat
  failed_tests : Nat
  skipped_tests : Nat
  transitions : List (TestState × TestState)
deriving DecidableEq, Repr

/-- A freshly constructed manager (Process_Control_20251201.py:72). -/
def TestStateManager.initial : TestStateManager :=
  { current_state := TestState.idle, current_test_plan := none,
    test_results := [], total_tests := 0, passed_tests := 0,
    failed_tests := 0, skipped_tests := 0, transitions := [] }

/-- The body of `TestStateManager.set_state` (Process_Control_20251201.py:92)
once the `with self._lock:` of line 94 has been acquired; it runs only
for callers that do not already hold the lock (such as the runner
thread at line 583). A call made while the lock is held never reaches
this body - see `set_state_locked`. -/
def set_state (m : TestStateManager) (s : TestState) : TestStateManager :=
  { m with
    current_state := s,
    transitions := m.transitions ++ [(m.current_state, s)] }

/-- Outcome of invoking a `TestStateManager` method: either the call
returns (lock released) or the calling thread blocks forever on a
nested acquire of the non-reentrant `threading.Lock`; `hung` carries
the shared manager state visible to other threads at the block. -/
inductive TSMCall (α : Type) where
  | ok (value : α) (state : TestStateManager)
  | hung (state : TestStateManager)
deriving DecidableEq, Repr

/-- `set_state` as invoked from a context whose thread may already hold
`_lock`: `threading.Lock` is not reentrant, so when `held` is true the
`with self._lock:` at line 94 blocks forever before the body runs,
leaving the caller-visible state unchanged. -/
def set_state_locked (held : Bool) (m : TestStateManager) (s : TestState) :
    TSMCall Unit :=
  if held then TSMCall.hung m else TSMCall.ok () (set_state m s)

/-- `TestStateManager.start_test` (Process_Control_20251201.py:110):
the method acquires the free lock at line 112, performs the field
resets of lines 113-119, then calls `set_state` at line 120 while
still holding the lock; the nested acquire at line 94 deadlocks, so
the method never returns, the partially mutated manager stays visible,
and no state transition is ever performed. -/
def start_test (m : TestStateManager) (test_plan : String) : TSMCall Unit :=
  set_state_locked true
    { m with
      current_test_plan := some test_plan,
      test_results := [],
      total_tests := 0,
      passed_tests := 0,
      failed_tests := 0,
      skipped_tests := 0 }
    TestState.running

/-- `TestStateManager.complete_test` (Process_Control_20251201.py:122):
the lock is held from line 124 when `set_state` re-acquires it at
line 94, so the method deadlocks and `COMPLETED` is never assigned. -/
def complete_test (m : TestStateManager) : TSMCall Unit :=
  set_state_locked true m TestState.completed

/-- `TestStateManager.fail_test` (Process_Control_20251201.py:128):
the lock is held from line 130 when `set_state` re-acquires it at
line 94, so the method deadlocks and `FAILED` is never assigned; the
error message is only logged. -/
def fail_test (m : TestStateManager) (_error_message : String) : TSMCall Unit :=
  set_state_locked true m TestState.failed

/-- `TestStateManager.add_result` (Process_Control_20251201.py:135). -/
def add_result (m : TestStateManager) (r : TestResult) : TestStateManager :=
  let m1 := { m with
    test_results := m.test_results ++ [r],
    total_tests := m.total_tests + 1 }
  if r.result = "Pass" then { m1 with passed_tests := m1.passed_tests + 1 }
  else if r.result = "Fail" then { m1 with failed_tests := m1.failed_tests + 1 }
  else { m1 with skipped_tests := m1.skipped_tests + 1 }

/-- The `pass_rate` expression at line 161 of
`TestStateManager.get_statistics`: guarded division, zero when no test
has been recorded. The enclosing method deadlocks at line 160 before
ever evaluating it - see `get_statistics_pass_rate`. -/
def pass_rate (m : TestStateManager) : ℚ :=
  if m.total_tests > 0 then (m.passed_tests : ℚ) / (m.total_tests : ℚ) * 100 else 0

/-- `TestStateManager.get_duration` (Process_Control_20251201.py:148)
as invoked from a context whose thread may already hold `_lock`: the
`with self._lock:` at line 150 blocks forever when the lock is held.
The duration value itself is real time and elided. -/
def get_duration_locked (held : Bool) (m : TestStateManager) : TSMCall Unit :=
  if held then TSMCall.hung m else TSMCall.ok () m

/-- `TestStateManager.get_statistics` (Process_Control_20251201.py:157)
restricted to the `pass_rate` entry it would report: the method
acquires the lock at line 159 and calls `self.get_duration()` at
line 160, which re-acquires the non-reentrant lock and blocks forever,
so the `pass_rate` expression of line 161 is never reached. -/
def get_statistics_pass_rate (m : TestStateManager) : TSMCall ℚ :=
  match get_duration_locked true m with
  | TSMCall.hung m2 => TSMCall.hung m2
  | TSMCall.ok _ m2 => TSMCall.ok (pass_rate m2) m2

/-- `TestStateManager.get_failed_tests` (Process_Control_20251201.py:176). -/
def get_failed_tests (m : TestStateManager) : List TestResult :=
  m.test_results.filter (fun r => r.result = "Fail")

/-- `TestStateManager.get_passed_tests` (Process_Control_20251201.py:181). -/
def get_passed_tests (m : TestStateManager) : List TestResult :=
  m.test_results.filter (fun r => r.result = "Pass")

/-- Outcome of one `serial.Serial` session inside
`UARTCommunicator.send_command`: the open/write can raise, or the port
has no pending bytes after the settle delay, or one raw line is read
within the timeout. -/
inductive PortBehavior where
  | openError (msg : String)
  | otherError (msg : String)
  | idle
  | line (raw : String)
deriving DecidableEq, Repr

/-- The body of the `try` block of `UARTCommunicator.send_command`
(Process_Control_20251201.py:465): an `Except.error` is a raised
exception reaching the handlers. -/
def send_command_body (p : PortBehavior) : Except String (Option String) :=
  match p with
  | PortBehavior.openError msg => Except.error msg
  | PortBehavior.otherError msg => Except.error msg
  | PortBehavior.idle => Except.ok none
  | PortBehavior.line raw => Except.ok (some (pyStrip raw))

/-- `UARTCommunicator.send_command` (Process_Control_20251201.py:463):
the `except` clauses turn every raised exception into `None`, so the
caller only ever sees an optional line. -/
def send_command (p : PortBehavior) : Option String :=
  match send_command_body p with
  | Except.ok r => r
  | Except.error _ => none

/-- One `step_name -> command_number` item of a step dict in
`Test_Case.yml`; `none` models a null command number. -/
abbrev StepItem := String × Option Nat

/-- One step of a test plan: the items of the step dict, in order. -/
abbrev Step := List StepItem

/-- The collaborators of `TestRunner`, as read-only functions: the
command library, the user-input dict, the device (reply of the n-th
transport invocation, `none` when no reply arrives), and the wall
clock used for timestamp validation. -/
structure TestRunnerCfg where
  command_library : Nat → Option CommandEntry
  user_inputs : String → Option String
  transport : Nat → String → Option String
  now : Int

/-- The mutable context threaded through a run: the state manager, the
trace of commands handed to the transport, and the number of
`stop_event.is_set()` polls performed so far (each poll reads the
external stop signal at the next index). -/
structure RunnerSt where
  manager : TestStateManager
  sends : List String
  polls : Nat
deriving Repr

/-- `TestRunner.run_test_task` (Process_Control_20251201.py:611): poll
the stop signal, look up the command, send it, and judge the reply.
Returns the optional result together with the updated context; the
per-condition settle delay is elided. -/
def run_test_task (cfg : TestRunnerCfg) (stop : Nat → Bool) (step_name : String)
    (command_number : Nat) (st : RunnerSt) : Option TestResult × RunnerSt :=
  if stop st.polls then
    (none, { st with polls := st.polls + 1 })
  else
    match cfg.command_library command_number with
    | none => (none, { st with polls := st.polls + 1 })
    | some entry =>
      (some (judge_response cfg.user_inputs cfg.now step_name entry.ID entry.Title
        entry.Command_Sends entry (cfg.transport st.sends.length entry.Command_Sends)),
       { st with
         polls := st.polls + 1,
         sends := st.sends ++ [entry.Command_Sends] })

/-- The inner `for step_name, command_number in step.items()` loop of
`TestRunner.run_test_case` (Process_Control_20251201.py:587): null
command numbers are skipped, and a returned result is recorded via
`add_result`. -/
def runItems (cfg : TestRunnerCfg) (stop : Nat → Bool) :
    Step → RunnerSt → RunnerSt
  | [], st => st
  | (_, none) :: rest, st => runItems cfg stop rest st
  | (name, some cn) :: rest, st =>
    let r := run_test_task cfg stop name cn st
    match r.1 with
    | some res => runItems cfg stop rest
        { r.2 with manager := add_result r.2.manager res }
    | none => runItems cfg stop rest r.2

/-- The outer `for step in steps` loop of `TestRunner.run_test_case`
(Process_Control_20251201.py:581): before each step the stop signal is
polled; if set, the state becomes `STOPPED` and the loop breaks (the
Bool reports whether the loop broke). -/
def runSteps (cfg : TestRunnerCfg) (stop : Nat → Bool) :
    List Step → RunnerSt → RunnerSt × Bool
  | [], st => (st, false)
  | step :: rest, st =>
    if stop st.polls then
      ({ st with
         polls := st.polls + 1,
         manager := set_state st.manager TestState.stopped }, true)
    else
      runSteps cfg stop rest (runItems cfg stop step { st with polls := st.polls + 1 })

/-- Outcome of `TestRunner.run_test_case`: the run finishes, or its
thread blocks forever inside a deadlocking manager method, with the
runner context visible at the block. -/
inductive RunOutcome where
  | finished (st : RunnerSt)
  | hung (st : RunnerSt)
deriving Repr

/-- `TestRunner.run_test_case` (Process_Control_20251201.py:558) with
the manager methods modelled lock-faithfully: unknown and empty plans
call `fail_test`, every other plan calls `start_test`, and both
deadlock on the nested `set_state` acquire, so every run blocks before
its first step. The step loop and the final poll plus `complete_test`
are embedded as the source writes them but are unreachable; report
generation is elided. -/
def run_test_case (cfg : TestRunnerCfg) (test_cases : String → Option (List Step))
    (test_plan : String) (stop : Nat → Bool) (st : RunnerSt) : RunOutcome :=
  match test_cases test_plan with
  | none =>
    match fail_test st.manager "no test cases" with
    | TSMCall.hung m => RunOutcome.hung { st with manager := m }
    | TSMCall.ok _ m => RunOutcome.finished { st with manager := m }
  | some steps =>
    if steps.isEmpty then
      match fail_test st.manager "no steps" with
      | TSMCall.hung m => RunOutcome.hung { st with manager := m }
      | TSMCall.ok _ m => RunOutcome.finished { st with manager := m }
    else
      match start_test st.manager test_plan with
      | TSMCall.hung m => RunOutcome.hung { st with manager := m }
      | TSMCall.ok _ m1 =>
        let r := runSteps cfg stop steps { st with manager := m1 }
        if stop r.1.polls then RunOutcome.finished { r.1 with polls := r.1.polls + 1 }
        else
          match complete_test r.1.manager with
          | TSMCall.hung m2 =>
            RunOutcome.hung { r.1 with polls := r.1.polls + 1, manager := m2 }
          | TSMCall.ok _ m2 =>
            RunOutcome.finished { r.1 with polls := r.1.polls + 1, manager := m2 }

/-- An `equal` condition used by the concrete scenarios below. -/
def exCondEqual : Condition :=
  { type := some "equal", expected := some "42", low := none, high := none, status := none }

/-- A `between` condition used by the concrete scenarios below. -/
def exCondBetween : Condition :=
  { type := some "between", expected := none, low := some 10, high := some 20, status := none }

/-- A command entry used by the concrete scenarios below. -/
def exEntry : CommandEntry :=
  { Command_Sends := "get_status", Title := "Read status", ID := "Check_Status",
    Response_Expectation := "OK", Condition := exCondEqual }

/-- A command library resolving command numbers 1 to 5. -/
def exLib : Nat → Option CommandEntry := fun n => if 1 ≤ n && n ≤ 5 then some exEntry else none

/-- A configuration whose device always answers `"OK 42"`. -/
def exCfgAllOk : TestRunnerCfg :=
  { command_library := exLib, user_inputs := fun _ => none,
    transport := fun _ _ => some "OK 42", now := 0 }

/-- A configuration whose device always answers `"ERR 42"`. -/
def exCfgErr : TestRunnerCfg :=
  { command_library := exLib, user_inputs := fun _ => none,
    transport := fun _ _ => some "ERR 42", now := 0 }

/-- A five-step plan, one resolvable command per step. -/
def exSteps5 : List Step :=
  [[("s1", some 1)], [("s2", some 2)], [("s3", some 3)], [("s4", some 4)], [("s5", some 5)]]

/-- Test-case table holding the five-step plan. -/
def exTestCases : String → Option (List Step) :=
  fun p => if p = "Plan_A" then some exSteps5 else none

/-- A library where only command number 2 exists. -/
def cexLib : Nat → Option CommandEntry := fun n => if n = 2 then some exEntry else none

/-- Configuration for the missing-command scenario. -/
def cexCfg : TestRunnerCfg :=
  { command_library := cexLib, user_inputs := fun _ => none,
    transport := fun _ _ => some "OK 42", now := 0 }

/-- The runner context at the start of a run. -/
def exSt0 : RunnerSt :=
  { manager := TestStateManager.initial, sends := [], polls := 0 }

/-- A result carrying a given outcome, for the aggregator scenarios. -/
def mkRes (s : String) : TestResult :=
  { step_name := "s", command_id := "c", title := "t", command_sent := "cmd",
    prefixStr := "", actual_value := none, expected_value := none,
    result := s, error_message := none }

theorem String.mk_data_eq (s : String) : String.mk s.data = s := rfl

theorem String.mk_append_mk (a b : List Char) :
    String.mk a ++ String.mk b = String.mk (a ++ b) := rfl

theorem space_string : (" " : String) = String.mk [' '] := rfl

theorem splitOnceSpace_recombine (l : List Char) :
    (match (splitOnceSpace l).2 with
     | none => (splitOnceSpace l).1
     | some v => (splitOnceSpace l).1 ++ ' ' :: v) = l := by
  induction l with
  | nil => rfl
  | cons c cs ih =>
    by_cases hc : c = ' '
    · subst hc
      simp [splitOnceSpace]
    · simp only [splitOnceSpace, if_neg hc]
      cases h : (splitOnceSpace cs).2 with
      | none =>
        rw [h] at ih
        simpa using congrArg (fun t => c :: t) ih
      | some v =>
        rw [h] at ih
        simpa using congrArg (fun t => c :: t) ih

/-- C5: `classify(raw)` satisfies the round trip: when the actual value
is absent the raw line equals the prefix, otherwise the raw line is the
prefix, a space, and the actual value; the empty input classifies to an
empty prefix with no actual value. -/
theorem classify_roundtrip (raw : String) :
    ((match (classify_data raw).2 with
      | none => (classify_data raw).1
      | some v => (classify_data raw).1 ++ " " ++ v) = raw) ∧
    classify_data "" = ("", none) := by
  refine ⟨?_, by decide⟩
  have h := splitOnceSpace_recombine raw.data
  cases hs : (splitOnceSpace raw.data).2 with
  | none =>
    rw [hs] at h
    simp only at h
    simp only [classify_data, hs, Option.map_none']
    rw [h]
  | some v =>
    rw [hs] at h
    simp only [classify_data, hs, Option.map_some']
    rw [space_string, String.mk_append_mk, String.mk_append_mk]
    rw [show ((splitOnceSpace raw.data).1 ++ [' '] ++ v) = raw.data from by
      simpa using h]

/-- C4: the `between` condition evaluates to true exactly when the
actual value parses as an integer lying inclusively between the bounds;
a value that does not parse yields false instead of an error. -/
theorem between_true_iff_parses_in_range (now : Int) (ex stt : Option String)
    (lo hi : Option Int) (s : String) :
    validate_data now
        { type := some "between", expected := ex, low := lo, high := hi, status := stt } s
       = true ↔
    ∃ v : Int, parsePyInt s = some v ∧ lo.getD 0 ≤ v ∧ v ≤ hi.getD 0 := by
  simp only [validate_data]
  norm_num
  cases h : parsePyInt s with
  | none => simp [h]
  | some v => simp [h]

/-- C6: `send_command` returns the (stripped) line when one arrives,
returns `none` when the port stays idle, and maps every exception
raised inside the session body to `none` instead of re-raising. -/
theorem send_command_returns_line_or_none (p : PortBehavior) :
    (∀ raw, p = PortBehavior.line raw → send_command p = some (pyStrip raw)) ∧
    (p = PortBehavior.idle → send_command p = none) ∧
    (∀ e, send_command_body p = Except.error e → send_command p = none) := by
  refine ⟨?_, ?_, ?_⟩
  · intro raw h; subst h; rfl
  · intro h; subst h; rfl
  · intro e h; simp [send_command, h]

/-- Witness for C6 at a concrete port: a line arrives and is returned
stripped; an idle port yields `none`. -/
theorem send_command_returns_line_or_none_example :
    send_command (PortBehavior.line " OK 5\n") = some "OK 5" ∧
    send_command PortBehavior.idle = none := by
  constructor
  · exact ((send_command_returns_line_or_none (PortBehavior.line " OK 5\n")).1
      " OK 5\n" rfl).trans (by decide)
  · exact (send_command_returns_line_or_none PortBehavior.idle).2.1 rfl

/-- The line-161 pass-rate expression in isolation: passed/total*100
when total is positive and 0 when total is 0 (no division error);
adding three Pass results and one Fail result to a fresh manager gives
75. The enclosing `get_statistics` never reaches this expression. -/
theorem pass_rate_guarded_division :
    (∀ m : TestStateManager,
      (m.total_tests = 0 → pass_rate m = 0) ∧
      (0 < m.total_tests →
        pass_rate m = (m.passed_tests : ℚ) / (m.total_tests : ℚ) * 100)) ∧
    (∀ r1 r2 r3 r4 : TestResult,
      r1.result = "Pass" → r2.result = "Pass" → r3.result = "Pass" →
      r4.result = "Fail" →
      pass_rate (add_result (add_result (add_result
        (add_result TestStateManager.initial r1) r2) r3) r4) = 75) := by
  constructor
  · intro m
    constructor
    · intro h; simp [pass_rate, h]
    · intro h; rw [pass_rate, if_pos h]
  · intro r1 r2 r3 r4 h1 h2 h3 h4
    have hne : ("Fail" : String) ≠ "Pass" := by decide
    norm_num [add_result, h1, h2, h3, h4, TestStateManager.initial, hne, pass_rate]

/-- Instances of the pass-rate expression property: a fresh aggregator
gives 0 and the three-Pass one-Fail scenario gives 75. -/
theorem pass_rate_guarded_division_example :
    pass_rate TestStateManager.initial = 0 ∧
    pass_rate (add_result (add_result (add_result
      (add_result TestStateManager.initial (mkRes "Pass")) (mkRes "Pass"))
        (mkRes "Pass")) (mkRes "Fail")) = 75 := by
  constructor
  · exact (pass_rate_guarded_division.1 TestStateManager.initial).1 rfl
  · exact pass_rate_guarded_division.2 (mkRes "Pass") (mkRes "Pass") (mkRes "Pass")
      (mkRes "Fail") rfl rfl rfl rfl

/-- C2: when a reply arrives but its classified prefix differs from the
expected prefix, the judge returns a single Fail result whose fields
come from the classification, whose error message names the mismatch,
and whose expected value stays absent; the result does not depend on
the condition (it is never evaluated), and executing such a step
appends exactly this one result before continuing with the rest. -/
theorem prefix_mismatch_single_fail_result (cfg : TestRunnerCfg) (stop : Nat → Bool)
    (st : RunnerSt) (name : String) (cn : Nat) (entry : CommandEntry) (r : String)
    (hstop : stop st.polls = false)
    (hlib : cfg.command_library cn = some entry)
    (hrep : cfg.transport st.sends.length entry.Command_Sends = some r)
    (hne : r ≠ "")
    (hpref : (classify_data r).1 ≠ entry.Response_Expectation) :
    ∃ res, judge_response cfg.user_inputs cfg.now name entry.ID entry.Title
        entry.Command_Sends entry (some r) = res ∧
      res.result = "Fail" ∧
      res.error_message =
        some (prefixMismatchMsg entry.Response_Expectation (classify_data r).1) ∧
      res.expected_value = none ∧
      res.actual_value = (classify_data r).2 ∧
      res.prefixStr = (classify_data r).1 ∧
      (∀ cond : Condition,
        judge_response cfg.user_inputs cfg.now name entry.ID entry.Title
          entry.Command_Sends { entry with Condition := cond } (some r) = res) ∧
      (∀ rest : Step,
        runItems cfg stop ((name, some cn) :: rest) st =
          runItems cfg stop rest
            { st with
              polls := st.polls + 1,
              sends := st.sends ++ [entry.Command_Sends],
              manager := add_result st.manager res }) := by
  have hj : ∀ cond : Condition,
      judge_response cfg.user_inputs cfg.now name entry.ID entry.Title
        entry.Command_Sends { entry with Condition := cond } (some r) =
      judge_response cfg.user_inputs cfg.now name entry.ID entry.Title
        entry.Command_Sends entry (some r) := by
    intro cond
    simp [judge_response, pyTruthyStrOpt, hne, hpref]
  refine ⟨_, rfl, ?_, ?_, ?_, ?_, ?_, hj, ?_⟩
  · simp [judge_response, pyTruthyStrOpt, hne, hpref]
  · simp [judge_response, pyTruthyStrOpt, hne, hpref]
  · simp [judge_response, pyTruthyStrOpt, hne, hpref]
  · simp [judge_response, pyTruthyStrOpt, hne, hpref]
  · simp [judge_response, pyTruthyStrOpt, hne, hpref]
  · intro rest
    simp [runItems, run_test_task, hstop, hlib, hrep]

/-- Witness for C2: a concrete step whose device reply has the wrong
prefix produces the single mismatch Fail result. -/
theorem prefix_mismatch_single_fail_result_example :
    ∃ res, judge_response exCfgErr.user_inputs exCfgErr.now "s1" exEntry.ID
        exEntry.Title exEntry.Command_Sends exEntry (some "ERR 42") = res ∧
      res.result = "Fail" ∧
      res.error_message =
        some (prefixMismatchMsg exEntry.Response_Expectation (classify_data "ERR 42").1) ∧
      res.expected_value = none ∧
      res.actual_value = (classify_data "ERR 42").2 ∧
      res.prefixStr = (classify_data "ERR 42").1 ∧
      (∀ cond : Condition,
        judge_response exCfgErr.user_inputs exCfgErr.now "s1" exEntry.ID
          exEntry.Title exEntry.Command_Sends { exEntry with Condition := cond }
          (some "ERR 42") = res) ∧
      (∀ rest : Step,
        runItems exCfgErr (fun _ => false) ((("s1", some 1) : StepItem) :: rest) exSt0 =
          runItems exCfgErr (fun _ => false) rest
            { exSt0 with
              polls := exSt0.polls + 1,
              sends := exSt0.sends ++ [exEntry.Command_Sends],
              manager := add_result exSt0.manager res }) :=
  prefix_mismatch_single_fail_result exCfgErr (fun _ => false) exSt0 "s1" 1 exEntry
    "ERR 42" rfl (by decide) rfl (by decide) (by decide)

/-- C3 counterexample: the no-reply error message recorded by the code
is "No response received", not the "no response" stated by the claim. -/
theorem no_response_message_not_spec_string :
    (judge_response (fun _ => none) 0 "s1" "Check_Status" "Read status" "get_status"
      exEntry none).result = "Fail" ∧
    (judge_response (fun _ => none) 0 "s1" "Check_Status" "Read status" "get_status"
      exEntry none).error_message = some "No response received" ∧
    (judge_response (fun _ => none) 0 "s1" "Check_Status" "Read status" "get_status"
      exEntry none).error_message ≠ some "no response" := by
  refine ⟨rfl, rfl, by decide⟩

/-- C3 amended: when the transport returns no reply, executing the step
emits exactly one TestResult, a Fail whose error message is
"No response received", and the run continues with the remaining
steps instead of aborting. -/
theorem no_response_fail_and_run_continues (cfg : TestRunnerCfg) (stop : Nat → Bool)
    (st : RunnerSt) (name : String) (cn : Nat) (entry : CommandEntry)
    (hstop : stop st.polls = false)
    (hlib : cfg.command_library cn = some entry)
    (hrep : cfg.transport st.sends.length entry.Command_Sends = none) :
    ∃ res, judge_response cfg.user_inputs cfg.now name entry.ID entry.Title
        entry.Command_Sends entry none = res ∧
      res.result = "Fail" ∧
      res.error_message = some "No response received" ∧
      (∀ rest : Step,
        runItems cfg stop ((name, some cn) :: rest) st =
          runItems cfg stop rest
            { st with
              polls := st.polls + 1,
              sends := st.sends ++ [entry.Command_Sends],
              manager := add_result st.manager res }) := by
  refine ⟨_, rfl, ?_, ?_, ?_⟩
  · simp [judge_response, pyTruthyStrOpt]
  · simp [judge_response, pyTruthyStrOpt]
  · intro rest
    simp [runItems, run_test_task, hstop, hlib, hrep]

/-- Witness for C3 at a concrete silent device: the single Fail result
with the recorded message, and the run moving on. -/
theorem no_response_fail_and_run_continues_example :
    ∃ res, judge_response exCfgAllOk.user_inputs exCfgAllOk.now "s1" exEntry.ID
        exEntry.Title exEntry.Command_Sends exEntry none = res ∧
      res.result = "Fail" ∧
      res.error_message = some "No response received" ∧
      (∀ rest : Step,
        runItems { exCfgAllOk with transport := fun _ _ => none } (fun _ => false)
            ((("s1", some 1) : StepItem) :: rest) exSt0 =
          runItems { exCfgAllOk with transport := fun _ _ => none } (fun _ => false) rest
            { exSt0 with
              polls := 1,
              sends := [exEntry.Command_Sends],
              manager := add_result exSt0.manager res }) := by
  have h := no_response_fail_and_run_continues
    { exCfgAllOk with transport := fun _ _ => none } (fun _ => false)
    exSt0 "s1" 1 exEntry rfl (by decide) rfl
  simpa using h

/-- C10: a reply whose prefix matches the expectation but carries no
payload (actual value absent or empty) makes the judge return Pass for
every non-deferred condition, without evaluating the condition: the
expected value stays absent, no error is recorded, and the outcome is
independent of the condition contents. -/
theorem matching_prefix_empty_value_passes (ui : String → Option String) (now : Int)
    (name cid title cmd : String) (entry : CommandEntry) (r : String)
    (hne : r ≠ "")
    (hpref : (classify_data r).1 = entry.Response_Expectation)
    (hval : (classify_data r).2 = none ∨ (classify_data r).2 = some "")
    (hdef : isDeferredType entry.Condition.type = false) :
    ∃ res, judge_response ui now name cid title cmd entry (some r) = res ∧
      res.result = "Pass" ∧
      res.expected_value = none ∧
      res.error_message = none ∧
      (∀ cond : Condition, isDeferredType cond.type = false →
        judge_response ui now name cid title cmd { entry with Condition := cond }
          (some r) = res) := by
  have hT : pyTruthyStrOpt (some r) = true := by simp [pyTruthyStrOpt, hne]
  have hF : pyTruthyStrOpt (classify_data r).2 = false := by
    rcases hval with h | h <;> simp [pyTruthyStrOpt, h]
  refine ⟨_, rfl, ?_, ?_, ?_, ?_⟩
  · simp [judge_response, hT, hF, hpref, hdef]
  · simp [judge_response, hT, hF, hpref, hdef]
  · simp [judge_response, hT, hF, hpref, hdef]
  · intro cond hcond
    simp [judge_response, hT, hF, hpref, hdef, hcond]

/-- Witness for C10: the payload-free reply "OK" passes a step whose
equal condition expects "42", and the result is the same under a
between condition. -/
theorem matching_prefix_empty_value_passes_example :
    ∃ res, judge_response (fun _ => none) 0 "s1" "Check_Status" "Read status"
        "get_status" exEntry (some "OK") = res ∧
      res.result = "Pass" ∧
      res.expected_value = none ∧
      res.error_message = none ∧
      judge_response (fun _ => none) 0 "s1" "Check_Status" "Read status" "get_status"
        { exEntry with Condition := exCondBetween } (some "OK") = res := by
  obtain ⟨res, h0, h1, h2, h3, h4⟩ := matching_prefix_empty_value_passes
    (fun _ => none) 0 "s1" "Check_Status" "Read status" "get_status" exEntry "OK"
    (by decide) (by decide) (Or.inl (by decide)) (by decide)
  exact ⟨res, h0, h1, h2, h3, h4 exCondBetween (by decide)⟩

/-- C8 amended: a step whose command number has no entry in the command
library is skipped without emitting any TestResult, without updating
any counter, and without invoking the transport; the run continues with
the remaining items. -/
theorem missing_command_skips_without_result (cfg : TestRunnerCfg) (stop : Nat → Bool)
    (st : RunnerSt) (name : String) (cn : Nat) (rest : Step)
    (hstop : stop st.polls = false)
    (hlib : cfg.command_library cn = none) :
    runItems cfg stop ((name, some cn) :: rest) st =
      runItems cfg stop rest { st with polls := st.polls + 1 } := by
  simp [runItems, run_test_task, hstop, hlib]

/-- Witness for C8: the missing command 1 of `cexLib` is skipped with
no result and the loop proceeds to the rest of the step. -/
theorem missing_command_skips_without_result_example :
    runItems cexCfg (fun _ => false) [(("s1", some 1) : StepItem)] exSt0 =
      runItems cexCfg (fun _ => false) [] { exSt0 with polls := exSt0.polls + 1 } :=
  missing_command_skips_without_result cexCfg (fun _ => false) exSt0 "s1" 1 []
    rfl (by decide)

/-- C8 counterexample: after skipping the missing command, the skipped
counter is still zero and nothing was recorded — the step is not
counted as skipped, contrary to the claim. -/
theorem missing_command_not_counted_skipped :
    (runItems cexCfg (fun _ => false) [(("s1", some 1) : StepItem)]
      exSt0).manager.skipped_tests = 0 ∧
    (runItems cexCfg (fun _ => false) [(("s1", some 1) : StepItem)]
      exSt0).manager.test_results = [] ∧
    (runItems cexCfg (fun _ => false) [(("s1", some 1) : StepItem)]
      exSt0).manager.total_tests = 0 := by
  decide

/-- C7 amended: `start_test` clears prior TestResults and zeroes every
counter, but then deadlocks inside `set_state` before any state
transition: the method never returns, the visible state keeps the old
current state (it never enters Initializing and never reaches
Running), and no transition notification is emitted. -/
theorem start_test_resets_then_hangs (m : TestStateManager) (plan : String) :
    ∃ mh, start_test m plan = TSMCall.hung mh ∧
      mh.current_state = m.current_state ∧
      mh.current_test_plan = some plan ∧
      mh.test_results = [] ∧
      mh.total_tests = 0 ∧
      mh.passed_tests = 0 ∧
      mh.failed_tests = 0 ∧
      mh.skipped_tests = 0 ∧
      mh.transitions = m.transitions :=
  ⟨_, rfl, rfl, rfl, rfl, rfl, rfl, rfl, rfl, rfl⟩

/-- C7 counterexample: on a fresh Idle manager `start_test` blocks
forever with the state still Idle and the transition trace still
empty - the run state never passes through Initializing and never
reaches Running. -/
theorem start_test_hangs_with_no_transition :
    start_test TestStateManager.initial "Plan_A" =
      TSMCall.hung
        { current_state := TestState.idle, current_test_plan := some "Plan_A",
          test_results := [], total_tests := 0, passed_tests := 0,
          failed_tests := 0, skipped_tests := 0, transitions := [] } ∧
    (match start_test TestStateManager.initial "Plan_A" with
     | TSMCall.ok _ m2 => m2.transitions
     | TSMCall.hung m2 => m2.transitions) = [] ∧
    (match start_test TestStateManager.initial "Plan_A" with
     | TSMCall.ok _ m2 => m2.current_state
     | TSMCall.hung m2 => m2.current_state) = TestState.idle :=
  ⟨rfl, rfl, rfl⟩

/-- C1: every run of a nonempty plan deadlocks inside `start_test`
before the first step executes: the runner thread hangs with no
TestResult recorded, the transport never invoked, the stop signal
never polled, and the run state unchanged - in particular never
Stopped. -/
theorem run_deadlocks_in_start_test (cfg : TestRunnerCfg)
    (tc : String → Option (List Step)) (plan : String) (steps : List Step)
    (stop : Nat → Bool) (st : RunnerSt)
    (hplan : tc plan = some steps) (hempty : steps.isEmpty = false) :
    ∃ mh, run_test_case cfg tc plan stop st = RunOutcome.hung { st with manager := mh } ∧
      mh.current_state = st.manager.current_state ∧
      mh.test_results = [] ∧
      mh.transitions = st.manager.transitions := by
  refine ⟨{ st.manager with
      current_test_plan := some plan,
      test_results := [],
      total_tests := 0,
      passed_tests := 0,
      failed_tests := 0,
      skipped_tests := 0 }, ?_, rfl, rfl, rfl⟩
  simp [run_test_case, hplan, hempty, start_test, set_state_locked]

/-- Witness for C1: the concrete five-step plan with the stop signal
scheduled between step 2 and step 3 hangs at start with nothing
recorded, nothing sent, and the state unchanged. -/
theorem run_deadlocks_in_start_test_example :
    ∃ mh, run_test_case exCfgAllOk exTestCases "Plan_A" (fun t => decide (4 ≤ t))
        exSt0 = RunOutcome.hung { exSt0 with manager := mh } ∧
      mh.current_state = exSt0.manager.current_state ∧
      mh.test_results = [] ∧
      mh.transitions = exSt0.manager.transitions :=
  run_deadlocks_in_start_test exCfgAllOk exTestCases "Plan_A" exSteps5
    (fun t => decide (4 ≤ t)) exSt0 (by decide) (by decide)

/-- C9: `get_statistics` deadlocks at its nested `get_duration` call
before the pass-rate expression is reached, for every manager state;
in particular the aggregator holding three Pass and one Fail results
never reports any pass rate, let alone 75. -/
theorem get_statistics_hangs_before_pass_rate :
    (∀ m : TestStateManager, get_statistics_pass_rate m = TSMCall.hung m) ∧
    get_statistics_pass_rate (add_result (add_result (add_result
      (add_result TestStateManager.initial (mkRes "Pass")) (mkRes "Pass"))
        (mkRes "Pass")) (mkRes "Fail")) =
      TSMCall.hung (add_result (add_result (add_result
        (add_result TestStateManager.initial (mkRes "Pass")) (mkRes "Pass"))
          (mkRes "Pass")) (mkRes "Fail")) :=
  ⟨fun _ => rfl, rfl⟩
